import Mathlib

/-!
Verification of the HSR/PRP frame-forwarding core
(`net/hsr-prp/hsr_prp_forward.c`) against its natural-language
specification.

The shallow embedding models a socket buffer as an explicit byte buffer
together with a data offset and a mac-header offset, so that the pointer
arithmetic of `skb_pull` / `skb_push` / `skb_reset_mac_header` and the
`memcpy` / `memmove` calls of the tag codec are reproduced faithfully at
the byte level.  External collaborators (node registry, device queues,
the allocator) are passed in as oracles, following the specification's
interface contracts.
-/

namespace HsrPrp

/-! ### Constants (from `linux/if_ether.h`, `linux/if_vlan.h` and the
protocol headers used by the source file). -/

def ETH_ALEN : Nat := 6
def ETH_HLEN : Nat := 14
def VLAN_HLEN : Nat := 4
def ETH_P_PRP : Nat := 0x88FB
def ETH_P_HSR : Nat := 0x892F
def ETH_P_8021Q : Nat := 0x8100

/-- Modelled from the spec: the redundancy tag is six octets
(path/LSDU-size word, sequence number, encapsulated protocol); the
constant `HSR_PRP_HLEN` lives in the repository header
`hsr_prp_main.h`, which is not part of the provided sources. -/
def HSR_PRP_HLEN : Nat := 6

/-- Modelled from the spec: supervision TLV type code for announce
frames (`HSR_TLV_ANNOUNCE` in the missing `hsr_prp_main.h`). -/
def HSR_TLV_ANNOUNCE : Nat := 22

/-- Modelled from the spec: supervision TLV type code for life-check
frames (`HSR_TLV_LIFE_CHECK` in the missing `hsr_prp_main.h`). -/
def HSR_TLV_LIFE_CHECK : Nat := 23

/-- Modelled from the spec: `sizeof(struct hsr_prp_sup_payload)` — the
supervision payload holds one MAC address, six octets. -/
def SUP_PAYLOAD_SIZE : Nat := 6

/-! ### Socket-buffer model -/

/-- Link-layer packet delivery class (`skb->pkt_type`). -/
inductive PacketType where
  | host
  | multicast
  | broadcast
  | otherhost
  deriving DecidableEq, Repr

/-- A socket buffer: a byte buffer `buf`, the data-pointer offset `off`
(bytes of headroom before the data), the mac-header offset `macOff`,
and the metadata fields the source file touches. -/
structure SkBuff where
  buf : List Nat
  off : Nat
  macOff : Nat
  pktType : PacketType
  ipSummedPartial : Bool
  csumStart : Int
  protocol : Nat
  deriving DecidableEq, Repr

/-- The data area of a buffer (from the data pointer to the tail). -/
def skbData (s : SkBuff) : List Nat := s.buf.drop s.off

/-- `skb->len`: number of bytes in the data area. -/
def skbLen (s : SkBuff) : Nat := (skbData s).length

/-- `skb_headroom`: bytes between the buffer head and the data pointer. -/
def skbHeadroom (s : SkBuff) : Nat := s.off

/-- `skb_pull(skb, n)`: advance the data pointer by `n`. -/
def skbPull (s : SkBuff) (n : Nat) : SkBuff := { s with off := s.off + n }

/-- `skb_push(skb, n)`: move the data pointer back by `n`. -/
def skbPush (s : SkBuff) (n : Nat) : SkBuff := { s with off := s.off - n }

/-- `skb_reset_mac_header`: the mac header starts at the data pointer. -/
def skbResetMac (s : SkBuff) : SkBuff := { s with macOff := s.off }

/-- `__pskb_copy(skb, headroom, ...)`: a fresh buffer holding the same
data with the requested headroom; metadata fields are copied. -/
def pskbCopy (s : SkBuff) (headroom : Nat) : SkBuff :=
  { s with buf := List.replicate headroom 0 ++ skbData s
         , off := headroom
         , macOff := headroom }

/-- The `CHECKSUM_PARTIAL` bookkeeping of both codec directions: when
the buffer carries a partial checksum, shift `csum_start` by the
header length (`delta` is negative when stripping). -/
def csumAdjust (s : SkBuff) (delta : Int) : SkBuff :=
  if s.ipSummedPartial then { s with csumStart := s.csumStart + delta }
  else s

@[simp] lemma csumAdjust_buf (s : SkBuff) (d : Int) :
    (csumAdjust s d).buf = s.buf := by
  unfold csumAdjust; split <;> rfl

@[simp] lemma csumAdjust_off (s : SkBuff) (d : Int) :
    (csumAdjust s d).off = s.off := by
  unfold csumAdjust; split <;> rfl

@[simp] lemma csumAdjust_macOff (s : SkBuff) (d : Int) :
    (csumAdjust s d).macOff = s.macOff := by
  unfold csumAdjust; split <;> rfl

@[simp] lemma skbData_csumAdjust (s : SkBuff) (d : Int) :
    skbData (csumAdjust s d) = skbData s := by
  unfold skbData
  rw [csumAdjust_buf, csumAdjust_off]

/-- Overwrite `r.length` bytes of `l` starting at index `i`. -/
def listOverwrite (l : List Nat) (i : Nat) (r : List Nat) : List Nat :=
  l.take i ++ r ++ l.drop (i + r.length)

/-- Write bytes `r` at offset `p` from the mac header. -/
def writeMac (s : SkBuff) (p : Nat) (r : List Nat) : SkBuff :=
  { s with buf := listOverwrite s.buf (s.macOff + p) r }

/-- Read `n` bytes at offset `p` from the mac header. -/
def readMac (s : SkBuff) (p n : Nat) : List Nat :=
  (s.buf.drop (s.macOff + p)).take n

/-- Read one byte at offset `p` from the mac header. -/
def byteMac (s : SkBuff) (p : Nat) : Nat := s.buf.getD (s.macOff + p) 0

/-- Read a big-endian 16-bit field at offset `p` from the mac header. -/
def read16Mac (s : SkBuff) (p : Nat) : Nat :=
  256 * byteMac s p + byteMac s (p + 1)

/-- Big-endian bytes of a 16-bit value. -/
def be16 (v : Nat) : List Nat := [v % 65536 / 256, v % 256]

/-! ### Ports and node-level configuration -/

/-- Port roles (`enum hsr_prp_port_type`, restricted to the roles the
source file distinguishes). -/
inductive PortType where
  | master
  | slaveA
  | slaveB
  | interlink
  deriving DecidableEq, Repr

/-- A port.  `pid` stands in for the identity of the C `struct
hsr_prp_port *`, so pointer comparison becomes structural equality. -/
structure Port where
  pid : Nat
  ptype : PortType
  deriving DecidableEq, Repr

/-- Node-level shared state (`struct hsr_prp_priv`): offload mode
flags, protocol version, supervision multicast address, the
self-address test (the external `hsr_prp_addr_is_self`, taken as an
oracle), and the shared outgoing sequence counter. -/
structure Priv where
  rxOffloaded : Bool
  l2FwdOffloaded : Bool
  protVer : Nat
  supMulticastAddr : List Nat
  isSelfAddr : List Nat → Bool
  sequenceNr : Nat

/-- `struct hsr_prp_frame_info`.  `nodeSrc` is the registry handle for
the originating peer (an opaque identifier; `none` when peer tracking
is disabled). -/
structure FrameInfo where
  skbStd : Option SkBuff
  skbHsr : Option SkBuff
  portRcv : Port
  nodeSrc : Option Nat
  sequenceNr : Nat
  isSupervision : Bool
  isVlan : Bool
  isLocalDest : Bool
  isLocalExclusive : Bool
  deriving DecidableEq, Repr

/-! ### `is_supervision_frame` -/

/-- Byte offset of the supervision tag within the frame: after the
plain Ethernet header for the v0 layout, after Ethernet header plus
redundancy tag for the HSRv1 layout (struct layouts
`hsrv0_ethhdr_sp` / `hsrv1_ethhdr_sp` from the protocol headers). -/
def supTagOff (s : SkBuff) : Nat :=
  if read16Mac s 12 = ETH_P_HSR then ETH_HLEN + HSR_PRP_HLEN else ETH_HLEN

/-- `is_supervision_frame`: destination must equal the supervision
multicast address, the ethertype must be one of the two redundancy
ethertypes, for HSRv1 the encapsulated protocol must be `ETH_P_PRP`,
and the supervision TLV type/length must be among the accepted
codes/lengths. -/
def isSupervisionFrame (priv : Priv) (s : SkBuff) : Bool :=
  if readMac s 0 ETH_ALEN ≠ priv.supMulticastAddr then false
  else if ¬(read16Mac s 12 = ETH_P_PRP ∨ read16Mac s 12 = ETH_P_HSR) then false
  else if read16Mac s 12 = ETH_P_HSR ∧ read16Mac s 18 ≠ ETH_P_PRP then false
  else if byteMac s (supTagOff s + 4) ≠ HSR_TLV_ANNOUNCE ∧
          byteMac s (supTagOff s + 4) ≠ HSR_TLV_LIFE_CHECK then false
  else if byteMac s (supTagOff s + 5) ≠ 12 ∧
          byteMac s (supTagOff s + 5) ≠ SUP_PAYLOAD_SIZE then false
  else true

/-! ### Tag codec -/

/-- `create_stripped_skb`:  pull the redundancy header off the input,
copy the remainder into a fresh buffer with reduced headroom, push the
input back, re-copy the leading addressing bytes over the copy's
start, and take the resulting ethertype as the buffer protocol.  The
boolean `allocOk` is the allocation oracle for `__pskb_copy`.  Returns
the new buffer (or `none` on allocation failure) together with the
final state of the input buffer. -/
def createStrippedSkb (skbIn : SkBuff) (isVlan : Bool) (allocOk : Bool) :
    Option SkBuff × SkBuff :=
  let pulled := skbPull skbIn HSR_PRP_HLEN
  let hr := skbHeadroom pulled - HSR_PRP_HLEN
  let skbIn' := skbPush pulled HSR_PRP_HLEN
  if allocOk = false then (none, skbIn')
  else
    let skb0 := skbResetMac (pskbCopy pulled hr)
    let skb1 := csumAdjust skb0 (-(HSR_PRP_HLEN : Int))
    let copylen := 2 * ETH_ALEN + (if isVlan then VLAN_HLEN else 0)
    let skb2 := writeMac skb1 0 (readMac skbIn' 0 copylen)
    let skb3 := { skb2 with protocol := read16Mac skb2 12 }
    (some skb3, skbIn')

/-- `hsr_fill_tag`: lane from the port role (slave-A is lane 0, any
other role lane 1), LSDU size is the current frame length minus the
Ethernet header (minus the VLAN header when tagged), written together
with the sequence number; the original ethertype is saved as the
encapsulated protocol and the outer ethertype is set from the protocol
version.  The path/LSDU-size word packs the lane in the upper four
bits (wire layout of the redundancy tag). -/
def hsrFillTag (s : SkBuff) (seqNr : Nat) (isVlan : Bool)
    (ptype : PortType) (protoVer : Nat) : SkBuff :=
  let laneId : Nat := if ptype = PortType.slaveA then 0 else 1
  let lsdu : Int := (skbLen s : Int) - 14 - (if isVlan then 4 else 0)
  let pathAndLsdu : Nat := (laneId % 16) * 4096 + (lsdu.emod 4096).toNat
  let s1 := writeMac s 14 [pathAndLsdu / 256, pathAndLsdu % 256]
  let s2 := writeMac s1 16 (be16 seqNr)
  let s3 := writeMac s2 18 (readMac s2 12 2)
  let outer := if protoVer ≠ 0 then ETH_P_HSR else ETH_P_PRP
  writeMac s3 12 [outer / 256, outer % 256]

/-- The buffer surgery of `create_tagged_skb` before the tag is
filled: copy with extra headroom for the tag, push the data pointer
over that headroom, move the leading `movelen` addressing bytes to the
new start, reset the mac header. -/
def tagShift (skbO : SkBuff) (movelen : Nat) : SkBuff :=
  let skb0 := skbResetMac (pskbCopy skbO (skbHeadroom skbO + HSR_PRP_HLEN))
  let skb1 := csumAdjust skb0 (HSR_PRP_HLEN : Int)
  let skb2 := skbPush skb1 HSR_PRP_HLEN
  let skb3 := { skb2 with
    buf := listOverwrite skb2.buf skb2.off
             ((skb2.buf.drop (skb2.off + HSR_PRP_HLEN)).take movelen) }
  skbResetMac skb3

/-- `create_tagged_skb`: copy the frame with extra headroom for the
redundancy tag, push the data pointer back over that headroom, move
the leading addressing bytes to the new start, and fill the tag in the
gap this opens. -/
def createTaggedSkb (skbO : SkBuff) (seqNr : Nat) (isVlan : Bool)
    (ptype : PortType) (protoVer : Nat) (allocOk : Bool) : Option SkBuff :=
  if allocOk = false then none
  else
    some (hsrFillTag
      (tagShift skbO (ETH_HLEN + (if isVlan then VLAN_HLEN else 0)))
      seqNr isVlan ptype protoVer)

/-- Outcome of obtaining the outbound copy for one port: a buffer, an
allocation failure (the `NULL` the caller tests for), or a fault — a
`NULL` pointer flowing into code that dereferences it
(`skb_clone(NULL, ...)` or the buffer ops of the codec). -/
inductive GetResult where
  | got (s : SkBuff)
  | failed
  | fault
  deriving DecidableEq, Repr

/-- `skb_clone`: share the buffer, subject to the allocation oracle;
cloning an absent buffer dereferences a null pointer. -/
def skbCloneOpt (s : Option SkBuff) (allocOk : Bool) : GetResult :=
  match s with
  | none => GetResult.fault
  | some s => if allocOk then GetResult.got s else GetResult.failed

/-- `frame_get_stripped_skb`: create and cache the stripped form on
first use, then clone the cache.  The cache is cloned whether or not
its creation succeeded (the source passes `frame->skb_std` to
`skb_clone` with no `NULL` test).  Returns the result together with
the updated frame context. -/
def frameGetStrippedSkb (frame : FrameInfo) (aCreate aClone : Bool) :
    GetResult × FrameInfo :=
  match frame.skbStd with
  | some s => (skbCloneOpt (some s) aClone, frame)
  | none =>
    match frame.skbHsr with
    | none => (GetResult.fault, frame)
    | some h =>
      let r := createStrippedSkb h frame.isVlan aCreate
      let frame' := { frame with skbStd := r.1, skbHsr := some r.2 }
      (skbCloneOpt r.1 aClone, frame')

/-- `frame_get_tagged_skb`: clone the tagged original if the frame
arrived tagged; otherwise only slave ports may ask for a tagged copy
(a warning plus `NULL` for any other role), built from the untagged
original. -/
def frameGetTaggedSkb (priv : Priv) (frame : FrameInfo) (port : Port)
    (aCreate : Bool) : GetResult × FrameInfo :=
  match frame.skbHsr with
  | some h => (skbCloneOpt (some h) aCreate, frame)
  | none =>
    if port.ptype ≠ PortType.slaveA ∧ port.ptype ≠ PortType.slaveB then
      (GetResult.failed, frame)
    else
      match frame.skbStd with
      | none => (GetResult.fault, frame)
      | some s =>
        match createTaggedSkb s frame.sequenceNr frame.isVlan port.ptype
                priv.protVer aCreate with
        | none => (GetResult.failed, frame)
        | some t => (GetResult.got t, frame)

/-! ### Forwarding engine -/

/-- Why a port was skipped, one constructor per `continue` of the port
loop in `hsr_prp_forward_do`. -/
inductive Reason where
  | rcvPort
  | masterNotLocal
  | exclusiveNotMaster
  | duplicate
  | supervision
  | l2Fwd
  deriving DecidableEq, Repr

/-- Observable dispatches of the engine: local delivery through the
master device, egress transmission, and the hand-off of a supervision
frame to the registry's supervision handler. -/
inductive Action where
  | deliverMaster (port : Port) (s : SkBuff)
  | xmit (port : Port) (s : SkBuff)
  | handleSup (port : Port)
  deriving DecidableEq, Repr

/-- Result of processing one candidate port: the skip reason (if any),
the dispatches it produced, and the updated frame context — or a
fault. -/
inductive StepOut where
  | ok (reason : Option Reason) (acts : List Action) (frame : FrameInfo)
  | fault
  deriving DecidableEq, Repr

/-- The skip reason of a non-faulting step. -/
def StepOut.reasonOf : StepOut → Option (Option Reason)
  | StepOut.ok r _ _ => some r
  | StepOut.fault => none

/-- The dispatches of a step. -/
def StepOut.actsOf : StepOut → List Action
  | StepOut.ok _ a _ => a
  | StepOut.fault => []

/-- The dispatch step for a surviving port (the tail of the loop body
of `hsr_prp_forward_do`): non-master ports get a tagged copy, the
master port a stripped one; a missing copy (allocation failure) skips
the port, and then master-role copies go to local delivery, all others
to egress transmission. -/
def dispatchPort (priv : Priv) (frame : FrameInfo)
    (aCreate aClone : Nat → Bool) (port : Port) : StepOut :=
  let gr :=
    if port.ptype ≠ PortType.master then
      frameGetTaggedSkb priv frame port (aCreate port.pid)
    else
      frameGetStrippedSkb frame (aCreate port.pid) (aClone port.pid)
  match gr.1 with
  | GetResult.fault => StepOut.fault
  | GetResult.failed => StepOut.ok none [] gr.2
  | GetResult.got s =>
    if port.ptype = PortType.master then
      StepOut.ok none [Action.deliverMaster port s] gr.2
    else
      StepOut.ok none [Action.xmit port s] gr.2

/-- The body of the port loop of `hsr_prp_forward_do`, for one
candidate port: the six exclusion tests in source order, then
obtaining the outbound copy and dispatching it.  `regOut` is the
`hsr_register_frame_out` oracle (true = this (peer, sequence) pair was
already sent on that port); `aCreate`/`aClone` are per-port allocation
oracles for creating a fresh copy and for cloning. -/
def processPort (priv : Priv) (frame : FrameInfo) (regOut : Nat → Bool)
    (aCreate aClone : Nat → Bool) (port : Port) : StepOut :=
  if port = frame.portRcv then
    StepOut.ok (some Reason.rcvPort) [] frame
  else if port.ptype = PortType.master ∧ ¬frame.isLocalDest then
    StepOut.ok (some Reason.masterNotLocal) [] frame
  else if port.ptype ≠ PortType.master ∧ frame.isLocalExclusive then
    StepOut.ok (some Reason.exclusiveNotMaster) [] frame
  else if ¬priv.rxOffloaded ∧ regOut port.pid then
    StepOut.ok (some Reason.duplicate) [] frame
  else if frame.isSupervision ∧ port.ptype = PortType.master ∧
          ¬priv.rxOffloaded then
    StepOut.ok (some Reason.supervision) [Action.handleSup port] frame
  else if priv.l2FwdOffloaded ∧
          ((frame.portRcv.ptype = PortType.slaveA ∧
            port.ptype = PortType.slaveB) ∨
           (frame.portRcv.ptype = PortType.slaveB ∧
            port.ptype = PortType.slaveA)) then
    StepOut.ok (some Reason.l2Fwd) [] frame
  else
    dispatchPort priv frame aCreate aClone port

/-- `hsr_prp_forward_do`: process each configured port in enumeration
order, threading the frame context (for the stripped-copy cache) and
collecting dispatches; a fault aborts the pass (`none`). -/
def forwardDoAux (priv : Priv) (regOut : Nat → Bool)
    (aCreate aClone : Nat → Bool) :
    List Port → FrameInfo → Option (List Action × FrameInfo)
  | [], frame => some ([], frame)
  | port :: ports, frame =>
    match processPort priv frame regOut aCreate aClone port with
    | StepOut.fault => none
    | StepOut.ok _ acts frame' =>
      match forwardDoAux priv regOut aCreate aClone ports frame' with
      | none => none
      | some (rest, frameF) => some (acts ++ rest, frameF)

/-! ### Frame classification -/

/-- `check_local_dest`: a destination equal to one of the node's own
addresses makes the frame exclusively local and forces the delivery
class to unicast-to-self; the frame is locally destined when the
delivery class is unicast-to-self, multicast or broadcast.  Returns
the (possibly retyped) buffer and the two flags (exclusive, dest). -/
def checkLocalDest (priv : Priv) (s : SkBuff) : SkBuff × Bool × Bool :=
  let dest := readMac s 0 ETH_ALEN
  let (s', excl) :=
    if priv.isSelfAddr dest then
      ({ s with pktType := PacketType.host }, true)
    else (s, false)
  let localDest :=
    s'.pktType = PacketType.host ∨ s'.pktType = PacketType.multicast ∨
    s'.pktType = PacketType.broadcast
  (s', excl, localDest)

/-- `hsr_prp_fill_frame_info`: classify supervision status (failing on
a supervision frame from a non-master port in receive-offloaded mode),
resolve the sending peer through the registry oracle unless offloaded
(failing when it yields nothing), detect VLAN, split tagged from
untagged framing — extracting the tag's sequence number, or assigning
the node counter and bumping it (a 16-bit counter, wrapping) — and
compute the locality flags.  Returns the frame context and the new
counter value, or `none` on failure. -/
def fillFrameInfo (priv : Priv) (s : SkBuff) (port : Port)
    (nodeOracle : Option Nat) : Option (FrameInfo × Nat) :=
  let isSup := isSupervisionFrame priv s
  if isSup ∧ priv.rxOffloaded ∧ port.ptype ≠ PortType.master then none
  else
    let nodeSrc : Option (Option Nat) :=
      if ¬priv.rxOffloaded then
        match nodeOracle with
        | none => none
        | some n => some (some n)
      else some none
    match nodeSrc with
    | none => none
    | some ns =>
      let isVlan := read16Mac s 12 = ETH_P_8021Q
      let tagged := read16Mac s 12 = ETH_P_PRP ∨ read16Mac s 12 = ETH_P_HSR
      let seqNr := if tagged then read16Mac s 16 else priv.sequenceNr
      let counter' :=
        if tagged then priv.sequenceNr else (priv.sequenceNr + 1) % 65536
      let cld := checkLocalDest priv s
      let frame : FrameInfo :=
        { skbStd := if tagged then none else some cld.1
        , skbHsr := if tagged then some cld.1 else none
        , portRcv := port
        , nodeSrc := ns
        , sequenceNr := seqNr
        , isSupervision := isSup
        , isVlan := isVlan
        , isLocalDest := cld.2.2
        , isLocalExclusive := cld.2.1 }
      some (frame, counter')

/-! ### Pipeline entry -/

/-- Outcome of one pass of `hsr_prp_forward_skb`. -/
inductive FwdOutcome where
  | dropFrame
  | done (acts : List Action)
  | fault
  deriving DecidableEq, Repr

/-- The dispatches of an outcome. -/
def FwdOutcome.actions : FwdOutcome → List Action
  | FwdOutcome.done a => a
  | _ => []

/-- `hsr_prp_forward_skb`: drop (counting the drop) when the mac
header is not at the start of the data or when classification fails;
otherwise run the forwarding pass.  Returns the outcome, the new value
of the node's outgoing sequence counter, and the increment applied to
the receiving device's drop counter. -/
def forwardSkb (priv : Priv) (ports : List Port) (regOut : Nat → Bool)
    (aCreate aClone : Nat → Bool) (nodeOracle : Option Nat)
    (s : SkBuff) (port : Port) : FwdOutcome × Nat × Nat :=
  if s.macOff ≠ s.off then (FwdOutcome.dropFrame, priv.sequenceNr, 1)
  else
    match fillFrameInfo priv s port nodeOracle with
    | none => (FwdOutcome.dropFrame, priv.sequenceNr, 1)
    | some (frame, counter') =>
      match forwardDoAux priv regOut aCreate aClone ports frame with
      | none => (FwdOutcome.fault, counter', 0)
      | some (acts, _) => (FwdOutcome.done acts, counter', 0)

/-! ### Concrete frames and configurations used by witnesses and
counterexamples -/

/-- A buffer whose mac header and data pointer coincide, built from raw
frame bytes. -/
def mkSkb (bytes : List Nat) (pt : PacketType) : SkBuff :=
  { buf := bytes, off := 0, macOff := 0, pktType := pt,
    ipSummedPartial := false, csumStart := 0, protocol := 0 }

/-- A test node configuration: software path (no offloads), PRP
protocol version, self address `07:08:09:0a:0b:0c`. -/
def testPriv : Priv :=
  { rxOffloaded := false
  , l2FwdOffloaded := false
  , protVer := 0
  , supMulticastAddr := [0x01, 0x15, 0x4E, 0, 1, 0]
  , isSelfAddr := fun d => d = [7, 8, 9, 10, 11, 12]
  , sequenceNr := 5 }

/-- The master port of the test configuration. -/
def portMaster : Port := { pid := 0, ptype := PortType.master }

/-- Slave-A of the test configuration. -/
def portA : Port := { pid := 1, ptype := PortType.slaveA }

/-- Slave-B of the test configuration. -/
def portB : Port := { pid := 2, ptype := PortType.slaveB }

/-- An untagged broadcast IPv4 frame with a three-byte payload. -/
def frameBcast : SkBuff :=
  mkSkb [255,255,255,255,255,255, 7,8,9,10,11,12, 8,0, 0xAA,0xBB,0xCC]
    PacketType.broadcast

/-- A VLAN-tagged broadcast frame (ethertype `0x8100`). -/
def frameVlan : SkBuff :=
  mkSkb [255,255,255,255,255,255, 7,8,9,10,11,12, 0x81,0, 0,5, 8,0, 0xAA]
    PacketType.broadcast

/-- A PRP-tagged broadcast frame (ethertype `0x88FB`, lane 1,
LSDU size 9, sequence number 5). -/
def frameTagged : SkBuff :=
  mkSkb [255,255,255,255,255,255, 7,8,9,10,11,12, 0x88,0xFB, 0x10,9, 0,5,
         8,0, 0xAA] PacketType.broadcast

/-! ### Claim theorems -/

/-- Claim C9: stripping never mutates its input.  The source pulls the
redundancy header off the input, copies, and pushes the header back;
the returned input state equals the original buffer exactly (same
headers, length and contents), on both the success and the
allocation-failure path. -/
theorem strip_preserves_input (skbIn : SkBuff) (isVlan allocOk : Bool) :
    (createStrippedSkb skbIn isVlan allocOk).2 = skbIn := by
  cases allocOk <;> simp [createStrippedSkb, skbPull, skbPush]

/-- Claim C10: after classification, an exclusively-local frame is
always also locally destined: `check_local_dest` forces the delivery
class to unicast-to-self before computing the locality flag. -/
theorem local_exclusive_implies_local_dest (priv : Priv) (s : SkBuff)
    (h : (checkLocalDest priv s).2.1 = true) :
    (checkLocalDest priv s).2.2 = true := by
  by_cases hs : priv.isSelfAddr (readMac s 0 ETH_ALEN) <;>
    simp [checkLocalDest, hs] at h ⊢

/-- Witness for `local_exclusive_implies_local_dest`: a frame addressed
to the node's own unicast address. -/
theorem local_exclusive_implies_local_dest_witness :
    (checkLocalDest testPriv
      (mkSkb [7,8,9,10,11,12, 1,1,1,1,1,1, 8,0] PacketType.otherhost)).2.1
        = true ∧
    (checkLocalDest testPriv
      (mkSkb [7,8,9,10,11,12, 1,1,1,1,1,1, 8,0] PacketType.otherhost)).2.2
        = true :=
  ⟨by decide, local_exclusive_implies_local_dest _ _ (by decide)⟩

/-- Claim C8: a frame whose mac header is not at the start of the data
is dropped: the receiving device's drop counter is incremented by one,
no dispatch is attempted, and the node counter is untouched. -/
theorem malformed_frame_dropped (priv : Priv) (ports : List Port)
    (regOut : Nat → Bool) (aCreate aClone : Nat → Bool)
    (nodeOracle : Option Nat) (s : SkBuff) (port : Port)
    (h : s.macOff ≠ s.off) :
    forwardSkb priv ports regOut aCreate aClone nodeOracle s port =
      (FwdOutcome.dropFrame, priv.sequenceNr, 1) := by
  simp [forwardSkb, h]

/-- Witness for `malformed_frame_dropped`: a buffer whose mac-header
offset disagrees with its data offset produces a drop, one drop-count
increment, and no dispatches. -/
theorem malformed_frame_dropped_witness :
    ({ frameBcast with macOff := 3 } : SkBuff).macOff ≠ frameBcast.off ∧
    forwardSkb testPriv [portMaster, portA, portB] (fun _ => false)
      (fun _ => true) (fun _ => true) (some 9)
      { frameBcast with macOff := 3 } portA =
      (FwdOutcome.dropFrame, testPriv.sequenceNr, 1) :=
  ⟨by decide, malformed_frame_dropped _ _ _ _ _ _ _ _ (by decide)⟩

/-- Claim C5: the classifier marks a frame as supervision exactly when
its destination equals the node's supervision multicast address, its
ethertype is one of the two redundancy ethertypes, for the HSRv1
ethertype the encapsulated protocol equals the PRP ethertype, the
supervision TLV type is announce or life-check, and the TLV length is
12 or the supervision-payload size; any single mismatch yields
not-supervision (an ordinary `false`, not an error). -/
theorem is_supervision_iff (priv : Priv) (s : SkBuff) :
    isSupervisionFrame priv s = true ↔
      (readMac s 0 ETH_ALEN = priv.supMulticastAddr ∧
       (read16Mac s 12 = ETH_P_PRP ∨ read16Mac s 12 = ETH_P_HSR) ∧
       (read16Mac s 12 = ETH_P_HSR → read16Mac s 18 = ETH_P_PRP) ∧
       (byteMac s (supTagOff s + 4) = HSR_TLV_ANNOUNCE ∨
        byteMac s (supTagOff s + 4) = HSR_TLV_LIFE_CHECK) ∧
       (byteMac s (supTagOff s + 5) = 12 ∨
        byteMac s (supTagOff s + 5) = SUP_PAYLOAD_SIZE)) := by
  unfold isSupervisionFrame
  split_ifs with h1 h2 h3 h4 h5 <;> simp_all <;> tauto

/-- Claim C4: classification of the sequence number.  A frame carrying
one of the two redundancy ethertypes gets its sequence number read
from the tag and leaves the node's outgoing counter unchanged; an
untagged frame is assigned the counter's current value and the counter
is incremented by exactly one (as a 16-bit counter). -/
theorem fill_frame_sequence (priv : Priv) (s : SkBuff) (port : Port)
    (nodeOracle : Option Nat)
    (h : (fillFrameInfo priv s port nodeOracle).isSome = true) :
    ((read16Mac s 12 = ETH_P_PRP ∨ read16Mac s 12 = ETH_P_HSR) →
      (fillFrameInfo priv s port nodeOracle).map
          (fun fc => (fc.1.sequenceNr, fc.2)) =
        some (read16Mac s 16, priv.sequenceNr)) ∧
    (¬(read16Mac s 12 = ETH_P_PRP ∨ read16Mac s 12 = ETH_P_HSR) →
      (fillFrameInfo priv s port nodeOracle).map
          (fun fc => (fc.1.sequenceNr, fc.2)) =
        some (priv.sequenceNr, (priv.sequenceNr + 1) % 65536) ∧
      (priv.sequenceNr + 1 < 65536 →
        (fillFrameInfo priv s port nodeOracle).map (fun fc => fc.2) =
          some (priv.sequenceNr + 1))) := by
  unfold fillFrameInfo at h ⊢
  by_cases ht : (read16Mac s 12 = ETH_P_PRP ∨ read16Mac s 12 = ETH_P_HSR) <;>
    split_ifs at h ⊢ <;> simp_all <;>
    cases nodeOracle <;> simp_all [Nat.mod_eq_of_lt]

/-- Witness for `fill_frame_sequence`: the untagged broadcast frame on
slave-A with counter 5 is assigned sequence number 5 and the counter
becomes 6; the tagged frame keeps the counter at 5 and extracts
sequence number 5 from its tag. -/
theorem fill_frame_sequence_witness :
    (fillFrameInfo testPriv frameBcast portA (some 9)).isSome = true ∧
    (fillFrameInfo testPriv frameBcast portA (some 9)).map
        (fun fc => (fc.1.sequenceNr, fc.2)) =
      some (testPriv.sequenceNr, (testPriv.sequenceNr + 1) % 65536) :=
  ⟨by decide,
   ((fill_frame_sequence testPriv frameBcast portA (some 9)
      (by decide)).2 (by decide)).1⟩

/-- Claim C3, counterexample: a VLAN-tagged broadcast frame received
on slave-A is *not* treated as a hard failure.  The classifier sets
the `is_vlan` flag, yet the pass completes with two dispatches (local
delivery plus egress on slave-B) and no drop-counter increment. -/
theorem vlan_frame_processed_counterexample :
    (fillFrameInfo testPriv frameVlan portA (some 9)).map
        (fun fc => fc.1.isVlan) = some true ∧
    (forwardSkb testPriv [portMaster, portA, portB] (fun _ => false)
        (fun _ => true) (fun _ => true) (some 9) frameVlan portA).2.2 = 0 ∧
    (forwardSkb testPriv [portMaster, portA, portB] (fun _ => false)
        (fun _ => true) (fun _ => true) (some 9) frameVlan portA).1.actions
      ≠ [] := by
  refine ⟨by decide, by decide, ?_⟩
  decide

/-- Claim C3 as amended: for ethertype `0x8100` the classifier sets
the `is_vlan` flag and logs a one-time warning, but classification
succeeds — provided peer resolution succeeds (or receive-offload makes
it unnecessary) the frame is processed like any untagged frame, not
dropped. -/
theorem vlan_sets_flag_and_proceeds (priv : Priv) (s : SkBuff)
    (port : Port) (nodeOracle : Option Nat)
    (hvlan : read16Mac s 12 = ETH_P_8021Q)
    (hnode : priv.rxOffloaded = true ∨ nodeOracle.isSome = true) :
    (fillFrameInfo priv s port nodeOracle).map
        (fun fc => (fc.1.isVlan, fc.1.skbHsr)) = some (true, none) := by
  have hsup : isSupervisionFrame priv s = false := by
    unfold isSupervisionFrame
    split_ifs with h1 h2 <;> simp_all [ETH_P_PRP, ETH_P_HSR, ETH_P_8021Q]
  have hne : ¬(read16Mac s 12 = ETH_P_PRP ∨ read16Mac s 12 = ETH_P_HSR) := by
    simp [hvlan, ETH_P_PRP, ETH_P_HSR, ETH_P_8021Q]
  rcases hnode with h | h
  · simp [fillFrameInfo, hsup, h, hvlan, hne]
    decide
  · cases nodeOracle with
    | none => simp at h
    | some n =>
      by_cases hro : priv.rxOffloaded <;>
        simp [fillFrameInfo, hsup, hro, hvlan, hne] <;> decide

/-- Witness for `vlan_sets_flag_and_proceeds`: the concrete VLAN
broadcast frame classifies successfully with the flag set. -/
theorem vlan_sets_flag_and_proceeds_witness :
    read16Mac frameVlan 12 = ETH_P_8021Q ∧
    (fillFrameInfo testPriv frameVlan portA (some 9)).map
        (fun fc => (fc.1.isVlan, fc.1.skbHsr)) = some (true, none) :=
  ⟨by decide,
   vlan_sets_flag_and_proceeds testPriv frameVlan portA (some 9)
     (by decide) (Or.inr (by decide))⟩

/-- An action that is acceptable for an exclusively-local frame:
anything handed to a master-role port, and in particular no egress
transmission. -/
def Action.isMasterDelivery : Action → Bool
  | Action.deliverMaster p _ => p.ptype = PortType.master
  | Action.xmit _ _ => false
  | Action.handleSup p => p.ptype = PortType.master

lemma dispatchPort_frame (priv : Priv) (frame : FrameInfo)
    (aCreate aClone : Nat → Bool) (port : Port) (r : Option Reason)
    (acts : List Action) (frame' : FrameInfo)
    (h : dispatchPort priv frame aCreate aClone port =
      StepOut.ok r acts frame') :
    frame' = (if port.ptype ≠ PortType.master then
        frameGetTaggedSkb priv frame port (aCreate port.pid)
      else
        frameGetStrippedSkb frame (aCreate port.pid)
          (aClone port.pid)).2 := by
  by_cases hpt : port.ptype ≠ PortType.master
  · simp only [dispatchPort, if_pos hpt] at h
    rw [if_pos hpt]
    split at h
    · exact StepOut.noConfusion h
    · injection h with h1 h2 h3; exact h3.symm
    · split at h <;> (injection h with h1 h2 h3; exact h3.symm)
  · simp only [dispatchPort, if_neg hpt] at h
    rw [if_neg hpt]
    split at h
    · exact StepOut.noConfusion h
    · injection h with h1 h2 h3; exact h3.symm
    · split at h <;> (injection h with h1 h2 h3; exact h3.symm)

lemma dispatchPort_master_acts (priv : Priv) (frame : FrameInfo)
    (aCreate aClone : Nat → Bool) (port : Port)
    (hm : port.ptype = PortType.master) :
    ∀ a ∈ (dispatchPort priv frame aCreate aClone port).actsOf,
      a.isMasterDelivery = true := by
  intro a ha
  simp only [dispatchPort, hm] at ha
  rw [if_neg (by simp)] at ha
  cases hgr : (frameGetStrippedSkb frame (aCreate port.pid)
      (aClone port.pid)).1 <;> rw [hgr] at ha <;>
    simp [StepOut.actsOf] at ha
  rw [ha]
  simp [Action.isMasterDelivery, hm]

lemma processPort_exclusive_acts (priv : Priv) (frame : FrameInfo)
    (regOut : Nat → Bool) (aCreate aClone : Nat → Bool) (port : Port)
    (hexcl : frame.isLocalExclusive = true) :
    ∀ a ∈ (processPort priv frame regOut aCreate aClone port).actsOf,
      a.isMasterDelivery = true := by
  unfold processPort
  split_ifs with h1 h2 h3 h4 h5 h6
  · simp [StepOut.actsOf]
  · simp [StepOut.actsOf]
  · simp [StepOut.actsOf]
  · simp [StepOut.actsOf]
  · intro a ha
    simp [StepOut.actsOf] at ha
    rw [ha]
    simp [Action.isMasterDelivery, h5.2.1]
  · simp [StepOut.actsOf]
  · have hm : port.ptype = PortType.master := by
      by_contra hc
      exact h3 ⟨hc, hexcl⟩
    exact dispatchPort_master_acts priv frame aCreate aClone port hm

lemma frameGetStrippedSkb_preserves (frame : FrameInfo) (a b : Bool) :
    ((frameGetStrippedSkb frame a b).2.isLocalExclusive,
     (frameGetStrippedSkb frame a b).2.isLocalDest) =
      (frame.isLocalExclusive, frame.isLocalDest) := by
  unfold frameGetStrippedSkb
  cases frame.skbStd <;> cases frame.skbHsr <;> simp

lemma frameGetTaggedSkb_frame (priv : Priv) (frame : FrameInfo)
    (port : Port) (a : Bool) :
    (frameGetTaggedSkb priv frame port a).2 = frame := by
  unfold frameGetTaggedSkb
  cases hh : frame.skbHsr with
  | some h => simp [hh]
  | none =>
    simp only [hh]
    split_ifs with hp
    · simp
    · cases hs : frame.skbStd with
      | none => simp [hs]
      | some s =>
        simp only [hs]
        cases createTaggedSkb s frame.sequenceNr frame.isVlan port.ptype
          priv.protVer a <;> simp

lemma processPort_preserves_exclusive (priv : Priv) (frame : FrameInfo)
    (regOut : Nat → Bool) (aCreate aClone : Nat → Bool) (port : Port)
    (r : Option Reason) (acts : List Action) (frame' : FrameInfo)
    (h : processPort priv frame regOut aCreate aClone port =
      StepOut.ok r acts frame') :
    frame'.isLocalExclusive = frame.isLocalExclusive := by
  unfold processPort at h
  split_ifs at h with h1 h2 h3 h4 h5 h6
  · injection h with ha hb hc; rw [← hc]
  · injection h with ha hb hc; rw [← hc]
  · injection h with ha hb hc; rw [← hc]
  · injection h with ha hb hc; rw [← hc]
  · injection h with ha hb hc; rw [← hc]
  · injection h with ha hb hc; rw [← hc]
  · rw [dispatchPort_frame priv frame aCreate aClone port r acts frame' h]
    split_ifs with hpt
    · rw [frameGetTaggedSkb_frame priv frame port (aCreate port.pid)]
    · exact congrArg Prod.fst
        (frameGetStrippedSkb_preserves frame (aCreate port.pid)
          (aClone port.pid))

/-- Claim C6: an exclusively-local frame is dispatched only to the
master port: every action of a completed pass is a local delivery (or
supervision hand-off) on a master-role port, and no egress
transmission happens on any non-master port. -/
theorem exclusive_local_master_only (priv : Priv) (regOut : Nat → Bool)
    (aCreate aClone : Nat → Bool) :
    ∀ (ports : List Port) (frame : FrameInfo) (acts : List Action)
      (frameF : FrameInfo),
      frame.isLocalExclusive = true →
      forwardDoAux priv regOut aCreate aClone ports frame =
        some (acts, frameF) →
      ∀ a ∈ acts, a.isMasterDelivery = true := by
  intro ports
  induction ports with
  | nil =>
    intro frame acts frameF hexcl hrun
    simp [forwardDoAux] at hrun
    rw [hrun.1]
    simp
  | cons p ps ih =>
    intro frame acts frameF hexcl hrun
    rw [forwardDoAux] at hrun
    cases hstep : processPort priv frame regOut aCreate aClone p with
    | fault =>
      simp only [hstep] at hrun
      exact Option.noConfusion hrun
    | ok r acts1 frame' =>
      simp only [hstep] at hrun
      cases hrest : forwardDoAux priv regOut aCreate aClone ps frame' with
      | none =>
        simp only [hrest] at hrun
        exact Option.noConfusion hrun
      | some pr =>
        obtain ⟨rest, fF⟩ := pr
        simp only [hrest, Option.some.injEq, Prod.mk.injEq] at hrun
        intro a ha
        rw [← hrun.1] at ha
        rcases List.mem_append.mp ha with h | h
        · have hpp := processPort_exclusive_acts priv frame regOut aCreate
            aClone p hexcl
          rw [hstep] at hpp
          exact hpp a h
        · have hexcl' : frame'.isLocalExclusive = true := by
            rw [processPort_preserves_exclusive priv frame regOut aCreate
              aClone p r acts1 frame' hstep]
            exact hexcl
          exact ih frame' rest fF hexcl' hrest a h

/-- Frame context of an exclusively-local untagged frame, as used by
witnesses. -/
def exclFrameInfo : FrameInfo :=
  { skbStd := some frameBcast, skbHsr := none, portRcv := portA
  , nodeSrc := some 9, sequenceNr := 5, isSupervision := false
  , isVlan := false, isLocalDest := true, isLocalExclusive := true }

/-- Witness for `exclusive_local_master_only`: with slave-B and master
configured and an exclusively-local frame from slave-A, the pass
produces exactly one local delivery and no egress. -/
theorem exclusive_local_master_only_witness :
    exclFrameInfo.isLocalExclusive = true ∧
    ∀ a ∈ [Action.deliverMaster portMaster frameBcast],
      a.isMasterDelivery = true :=
  ⟨rfl,
   exclusive_local_master_only testPriv (fun _ => false) (fun _ => true)
     (fun _ => true) [portB, portMaster] exclFrameInfo
     [Action.deliverMaster portMaster frameBcast] exclFrameInfo rfl
     (by decide)⟩

/-- Claim C7 (failing case): when the frame arrived tagged and the
allocation for the master port's stripped copy fails, the source
leaves the stripped cache `NULL` and passes it straight to
`skb_clone`, a null-pointer dereference — the pass faults instead of
skipping that port.  Concretely: the tagged broadcast frame received
on slave-A, with allocation failing only for the master port
(`pid = 0`). -/
theorem master_strip_alloc_failure_faults :
    forwardSkb testPriv [portMaster, portA, portB] (fun _ => false)
        (fun pid => decide (pid ≠ 0)) (fun _ => true) (some 9)
        frameTagged portA =
      (FwdOutcome.fault, 5, 0) ∧
    (frameGetStrippedSkb
        { skbStd := none, skbHsr := some frameTagged, portRcv := portA
        , nodeSrc := some 9, sequenceNr := 5, isSupervision := false
        , isVlan := false, isLocalDest := true, isLocalExclusive := false }
        false true).1 = GetResult.fault := by
  constructor
  · decide
  · decide

/-! ### Claim C1: the guard list of the specification -/

/-- The six exclusion predicates exactly as the specification words
them (§4.4), as an ordered list of independent boolean guards.  This
is the specification side of the refinement claim; the code side is
`processPort`. -/
def claimGuards (priv : Priv) (frame : FrameInfo) (regOut : Nat → Bool)
    (port : Port) : List (Reason × Bool) :=
  [ (Reason.rcvPort, decide (port = frame.portRcv))
  , (Reason.masterNotLocal,
      decide (port.ptype = PortType.master) && !frame.isLocalDest)
  , (Reason.exclusiveNotMaster,
      !(decide (port.ptype = PortType.master)) && frame.isLocalExclusive)
  , (Reason.duplicate, !priv.rxOffloaded && regOut port.pid)
  , (Reason.supervision,
      frame.isSupervision && decide (port.ptype = PortType.master) &&
        !priv.rxOffloaded)
  , (Reason.l2Fwd,
      priv.l2FwdOffloaded &&
        ((decide (frame.portRcv.ptype = PortType.slaveA) &&
          decide (port.ptype = PortType.slaveB)) ||
         (decide (frame.portRcv.ptype = PortType.slaveB) &&
          decide (port.ptype = PortType.slaveA)))) ]

/-- First matching guard of the specification's ordered list. -/
def specSkipReason (priv : Priv) (frame : FrameInfo) (regOut : Nat → Bool)
    (port : Port) : Option Reason :=
  ((claimGuards priv frame regOut port).find? (fun g => g.2)).map Prod.fst

lemma specSkipReason_cases (priv : Priv) (frame : FrameInfo)
    (regOut : Nat → Bool) (port : Port) :
    specSkipReason priv frame regOut port =
      (if port = frame.portRcv then some Reason.rcvPort
       else if port.ptype = PortType.master ∧ ¬frame.isLocalDest then
         some Reason.masterNotLocal
       else if port.ptype ≠ PortType.master ∧ frame.isLocalExclusive then
         some Reason.exclusiveNotMaster
       else if ¬priv.rxOffloaded ∧ regOut port.pid then
         some Reason.duplicate
       else if frame.isSupervision ∧ port.ptype = PortType.master ∧
               ¬priv.rxOffloaded then
         some Reason.supervision
       else if priv.l2FwdOffloaded ∧
               ((frame.portRcv.ptype = PortType.slaveA ∧
                 port.ptype = PortType.slaveB) ∨
                (frame.portRcv.ptype = PortType.slaveB ∧
                 port.ptype = PortType.slaveA)) then
         some Reason.l2Fwd
       else none) := by
  unfold specSkipReason claimGuards
  simp only [List.find?]
  cases hb1 : decide (port = frame.portRcv) with
  | true => split_ifs <;> simp_all
  | false =>
  cases hb2 : decide (port.ptype = PortType.master) && !frame.isLocalDest
    with
  | true => split_ifs <;> simp_all
  | false =>
  cases hb3 : !decide (port.ptype = PortType.master) &&
      frame.isLocalExclusive with
  | true => split_ifs <;> simp_all
  | false =>
  cases hb4 : !priv.rxOffloaded && regOut port.pid with
  | true => split_ifs <;> simp_all
  | false =>
  cases hb5 : frame.isSupervision &&
      decide (port.ptype = PortType.master) && !priv.rxOffloaded with
  | true => split_ifs <;> simp_all
  | false =>
  cases hb6 : priv.l2FwdOffloaded &&
      ((decide (frame.portRcv.ptype = PortType.slaveA) &&
        decide (port.ptype = PortType.slaveB)) ||
       (decide (frame.portRcv.ptype = PortType.slaveB) &&
        decide (port.ptype = PortType.slaveA))) with
  | true => split_ifs <;> simp_all
  | false => split_ifs <;> simp_all <;> tauto

lemma createStrippedSkb_fst_isSome (x : SkBuff) (v : Bool) :
    ((createStrippedSkb x v true).1).isSome = true := by
  simp [createStrippedSkb]

lemma createTaggedSkb_isSome (x : SkBuff) (n : Nat) (v : Bool)
    (pt : PortType) (pv : Nat) :
    (createTaggedSkb x n v pt pv true).isSome = true := by
  simp [createTaggedSkb]

lemma dispatchPort_ok_reason (priv : Priv) (frame : FrameInfo)
    (aCreate aClone : Nat → Bool) (port : Port) (r : Option Reason)
    (acts : List Action) (f' : FrameInfo)
    (h : dispatchPort priv frame aCreate aClone port =
      StepOut.ok r acts f') : r = none := by
  by_cases hpt : port.ptype ≠ PortType.master
  · simp only [dispatchPort, if_pos hpt] at h
    split at h
    · exact StepOut.noConfusion h
    · injection h with h1 h2 h3; exact h1.symm
    · split at h <;> (injection h with h1 h2 h3; exact h1.symm)
  · simp only [dispatchPort, if_neg hpt] at h
    split at h
    · exact StepOut.noConfusion h
    · injection h with h1 h2 h3; exact h1.symm
    · split at h <;> (injection h with h1 h2 h3; exact h1.symm)

lemma dispatchPort_dispatches (priv : Priv) (frame : FrameInfo)
    (aCreate aClone : Nat → Bool) (port : Port)
    (hac : aCreate port.pid = true) (hacl : aClone port.pid = true)
    (hskb : frame.skbHsr.isSome = true ∨ frame.skbStd.isSome = true)
    (hrole : frame.skbHsr = none → port.ptype ≠ PortType.interlink) :
    ∃ s, (dispatchPort priv frame aCreate aClone port).actsOf =
      [if port.ptype = PortType.master then Action.deliverMaster port s
       else Action.xmit port s] := by
  by_cases hm : port.ptype = PortType.master
  · cases hstd : frame.skbStd with
    | some s =>
      exact ⟨s, by simp [dispatchPort, hm, frameGetStrippedSkb, hstd,
        skbCloneOpt, hacl, StepOut.actsOf]⟩
    | none =>
      cases hhsr : frame.skbHsr with
      | none => rw [hstd, hhsr] at hskb; simp at hskb
      | some hbuf =>
        obtain ⟨st, hst⟩ := Option.isSome_iff_exists.mp
          (createStrippedSkb_fst_isSome hbuf frame.isVlan)
        refine ⟨st, ?_⟩
        simp [dispatchPort, hm, frameGetStrippedSkb, hstd, hhsr, hac, hst,
          skbCloneOpt, hacl, StepOut.actsOf]
  · cases hhsr : frame.skbHsr with
    | some hbuf =>
      exact ⟨hbuf, by simp [dispatchPort, hm, frameGetTaggedSkb, hhsr,
        skbCloneOpt, hac, StepOut.actsOf]⟩
    | none =>
      have hAB : port.ptype = PortType.slaveA ∨
          port.ptype = PortType.slaveB := by
        have hint := hrole hhsr
        cases hp : port.ptype <;> simp_all
      cases hstd : frame.skbStd with
      | none => rw [hstd, hhsr] at hskb; simp at hskb
      | some s =>
        obtain ⟨t, ht⟩ := Option.isSome_iff_exists.mp
          (createTaggedSkb_isSome s frame.sequenceNr frame.isVlan
            port.ptype priv.protVer)
        refine ⟨t, ?_⟩
        have hnab : ¬(port.ptype ≠ PortType.slaveA ∧
            port.ptype ≠ PortType.slaveB) := by
          rcases hAB with h | h <;> simp [h]
        simp [dispatchPort, hm, frameGetTaggedSkb, hhsr, hnab, hstd, hac,
          ht, StepOut.actsOf]

/-- Claim C1: for every frame and candidate port, the engine skips the
port exactly according to the first matching guard of the
specification's ordered six-guard list (`specSkipReason`); a matched
supervision guard hands the frame to the supervision handler instead
of normal delivery, every other matched guard produces nothing, and a
port surviving all six guards receives exactly one dispatch — local
delivery when it is the master port, egress transmission otherwise
(given that allocation succeeds, the context holds a tagged or
untagged original, and no interlink port is asked to tag an untagged
frame). -/
theorem forward_port_skip_iff_dispatch (priv : Priv) (frame : FrameInfo)
    (regOut : Nat → Bool) (aCreate aClone : Nat → Bool) (port : Port)
    (hac : aCreate port.pid = true) (hacl : aClone port.pid = true)
    (hskb : frame.skbHsr.isSome = true ∨ frame.skbStd.isSome = true)
    (hrole : frame.skbHsr = none → port.ptype ≠ PortType.interlink) :
    (processPort priv frame regOut aCreate aClone port).reasonOf =
      some (specSkipReason priv frame regOut port) ∧
    (∀ r, specSkipReason priv frame regOut port = some r →
      (processPort priv frame regOut aCreate aClone port).actsOf =
        if r = Reason.supervision then [Action.handleSup port] else []) ∧
    (specSkipReason priv frame regOut port = none →
      ((port.ptype = PortType.master ∧
        ∃ s, (processPort priv frame regOut aCreate aClone port).actsOf =
          [Action.deliverMaster port s]) ∨
       (port.ptype ≠ PortType.master ∧
        ∃ s, (processPort priv frame regOut aCreate aClone port).actsOf =
          [Action.xmit port s]))) := by
  rw [specSkipReason_cases]
  unfold processPort
  split_ifs with h1 h2 h3 h4 h5 h6
  · refine ⟨rfl, ?_, fun hn => absurd hn (by simp)⟩
    intro r hr
    injection hr with hr
    subst hr
    simp [StepOut.actsOf]
  · refine ⟨rfl, ?_, fun hn => absurd hn (by simp)⟩
    intro r hr
    injection hr with hr
    subst hr
    simp [StepOut.actsOf]
  · refine ⟨rfl, ?_, fun hn => absurd hn (by simp)⟩
    intro r hr
    injection hr with hr
    subst hr
    simp [StepOut.actsOf]
  · refine ⟨rfl, ?_, fun hn => absurd hn (by simp)⟩
    intro r hr
    injection hr with hr
    subst hr
    simp [StepOut.actsOf]
  · refine ⟨rfl, ?_, fun hn => absurd hn (by simp)⟩
    intro r hr
    injection hr with hr
    subst hr
    simp [StepOut.actsOf]
  · refine ⟨rfl, ?_, fun hn => absurd hn (by simp)⟩
    intro r hr
    injection hr with hr
    subst hr
    simp [StepOut.actsOf]
  · obtain ⟨s, hs⟩ := dispatchPort_dispatches priv frame aCreate aClone
      port hac hacl hskb hrole
    cases hd : dispatchPort priv frame aCreate aClone port with
    | fault =>
      rw [hd] at hs
      simp [StepOut.actsOf] at hs
    | ok r acts f' =>
      have hr0 := dispatchPort_ok_reason priv frame aCreate aClone port r
        acts f' hd
      subst hr0
      rw [hd] at hs
      refine ⟨rfl, fun r hr' => absurd hr' (by simp), fun _ => ?_⟩
      by_cases hm : port.ptype = PortType.master
      · exact Or.inl ⟨hm, ⟨s, by rw [if_pos hm] at hs; exact hs⟩⟩
      · exact Or.inr ⟨hm, ⟨s, by rw [if_neg hm] at hs; exact hs⟩⟩

/-! ### Byte-level facts about the tag codec -/

lemma take_append_big {l1 l2 : List Nat} {n : Nat} (h : l1.length ≤ n) :
    List.take n (l1 ++ l2) = l1 ++ List.take (n - l1.length) l2 := by
  rw [List.take_append_eq_append_take, List.take_of_length_le h]

lemma take_append_small {l1 l2 : List Nat} {n : Nat} (h : n ≤ l1.length) :
    List.take n (l1 ++ l2) = List.take n l1 := by
  rw [List.take_append_eq_append_take,
    Nat.sub_eq_zero_of_le h, List.take_zero, List.append_nil]

lemma drop_append_big {l1 l2 : List Nat} {n : Nat} (h : l1.length ≤ n) :
    List.drop n (l1 ++ l2) = List.drop (n - l1.length) l2 := by
  rw [List.drop_append_eq_append_drop, List.drop_eq_nil_of_le h,
    List.nil_append]

lemma skbData_writeMac (s : SkBuff) (p : Nat) (r : List Nat)
    (hm : s.macOff = s.off) (hb : s.off ≤ s.buf.length) :
    skbData (writeMac s p r) = listOverwrite (skbData s) p r := by
  unfold skbData writeMac listOverwrite
  simp only [hm]
  rw [List.drop_append_eq_append_drop, List.drop_append_eq_append_drop]
  have hlt : (List.take (s.off + p) s.buf).length =
      min (s.off + p) s.buf.length := List.length_take _ _
  have h1 : s.off - (List.take (s.off + p) s.buf).length = 0 := by
    rw [hlt]; omega
  have h2 : s.off - (List.take (s.off + p) s.buf ++ r).length = 0 := by
    rw [List.length_append, hlt]; omega
  rw [h1, h2, List.drop_zero, List.drop_zero, List.drop_take]
  have h3 : s.off + p - s.off = p := by omega
  have h5 : List.drop (p + r.length) (List.drop s.off s.buf) =
      List.drop (s.off + (p + r.length)) s.buf := List.drop_drop _ _ _
  have h6 : s.off + p + r.length = s.off + (p + r.length) := by omega
  rw [h3, h5, h6]

lemma readMac_eq_data (s : SkBuff) (p n : Nat) (hm : s.macOff = s.off) :
    readMac s p n = ((skbData s).drop p).take n := by
  unfold readMac skbData
  rw [hm, List.drop_drop]

/-- Stripping (non-VLAN): the output's bytes are the input's first
twelve (addressing) bytes followed by everything past the redundancy
tag — which starts with the tag's encapsulated-protocol field. -/
lemma createStrippedSkb_data (t : SkBuff) (hm : t.macOff = t.off)
    (hl : 12 ≤ skbLen t) :
    ∃ u, (createStrippedSkb t false true).1 = some u ∧
      u.macOff = u.off ∧
      skbData u = (skbData t).take 12 ++ (skbData t).drop 18 := by
  simp only [createStrippedSkb]
  rw [if_neg (by decide : ¬(true = false))]
  refine ⟨_, rfl, ?_, ?_⟩
  · simp [writeMac, skbResetMac, pskbCopy, skbPull, skbPush, skbHeadroom]
  · show skbData (writeMac (csumAdjust (skbResetMac (pskbCopy
        (skbPull t HSR_PRP_HLEN)
        (skbHeadroom (skbPull t HSR_PRP_HLEN) - HSR_PRP_HLEN)))
        (-(HSR_PRP_HLEN : Int))) 0
        (readMac (skbPush (skbPull t HSR_PRP_HLEN) HSR_PRP_HLEN) 0
          (2 * ETH_ALEN + if false then VLAN_HLEN else 0))) = _
    have hmac : (csumAdjust (skbResetMac (pskbCopy (skbPull t HSR_PRP_HLEN)
        (skbHeadroom (skbPull t HSR_PRP_HLEN) - HSR_PRP_HLEN)))
        (-(HSR_PRP_HLEN : Int))).macOff = t.off := by
      simp [skbResetMac, pskbCopy, skbPull, skbHeadroom, HSR_PRP_HLEN]
    have hoff : (csumAdjust (skbResetMac (pskbCopy (skbPull t HSR_PRP_HLEN)
        (skbHeadroom (skbPull t HSR_PRP_HLEN) - HSR_PRP_HLEN)))
        (-(HSR_PRP_HLEN : Int))).off = t.off := by
      simp [skbResetMac, pskbCopy, skbPull, skbHeadroom, HSR_PRP_HLEN]
    have hbuf : (csumAdjust (skbResetMac (pskbCopy (skbPull t HSR_PRP_HLEN)
        (skbHeadroom (skbPull t HSR_PRP_HLEN) - HSR_PRP_HLEN)))
        (-(HSR_PRP_HLEN : Int))).buf =
        List.replicate t.off 0 ++ (skbData t).drop 6 := by
      simp [skbResetMac, pskbCopy, skbPull, skbHeadroom, HSR_PRP_HLEN,
        skbData]
    have hread : readMac (skbPush (skbPull t HSR_PRP_HLEN) HSR_PRP_HLEN) 0
        (2 * ETH_ALEN + if false then VLAN_HLEN else 0) =
        (skbData t).take 12 := by
      simp [readMac, skbPush, skbPull, skbData, ETH_ALEN, VLAN_HLEN, hm,
        HSR_PRP_HLEN]
    rw [hread]
    have hD : skbData t = List.drop t.off t.buf := rfl
    unfold skbData writeMac listOverwrite
    simp only [hbuf, hmac, hoff, hD, Nat.add_zero]
    have h12 : 12 ≤ (List.drop t.off t.buf).length := hl
    have hRlen : (List.take 12 (List.drop t.off t.buf)).length = 12 := by
      rw [List.length_take]; omega
    rw [hRlen]
    rw [take_append_small (by simp), List.take_replicate, Nat.min_self]
    rw [drop_append_big
      (show (List.replicate t.off (0 : Nat)).length ≤ t.off + 12 by simp)]
    rw [List.append_assoc]
    rw [drop_append_big
      (show (List.replicate t.off (0 : Nat)).length ≤ t.off by simp)]
    simp only [List.length_replicate, Nat.sub_self, Nat.add_sub_cancel_left,
      List.drop_zero]
    rw [List.drop_drop]

@[simp] lemma writeMac_off (s : SkBuff) (p : Nat) (r : List Nat) :
    (writeMac s p r).off = s.off := rfl

@[simp] lemma writeMac_macOff (s : SkBuff) (p : Nat) (r : List Nat) :
    (writeMac s p r).macOff = s.macOff := rfl

lemma writeMac_buf (s : SkBuff) (p : Nat) (r : List Nat) :
    (writeMac s p r).buf = listOverwrite s.buf (s.macOff + p) r := rfl

lemma listOverwrite_length_ge (l : List Nat) (i : Nat) (r : List Nat) :
    l.length ≤ (listOverwrite l i r).length := by
  unfold listOverwrite
  simp [List.length_take]
  omega

lemma listOverwrite_segment (A B C r : List Nat) (i : Nat)
    (hi : i = A.length) (hr : r.length = B.length) :
    listOverwrite (A ++ (B ++ C)) i r = A ++ (r ++ C) := by
  subst hi
  unfold listOverwrite
  rw [take_append_small (Nat.le_refl _), List.take_length]
  rw [drop_append_big (by omega)]
  rw [Nat.add_sub_cancel_left, hr]
  rw [drop_append_big (Nat.le_refl _)]
  rw [Nat.sub_self, List.drop_zero, List.append_assoc]

lemma writeMac_step (s : SkBuff) (p : Nat) (r : List Nat)
    (hm : s.macOff = s.off) (hb : s.off ≤ s.buf.length) :
    skbData (writeMac s p r) = listOverwrite (skbData s) p r ∧
    (writeMac s p r).macOff = (writeMac s p r).off ∧
    (writeMac s p r).off ≤ (writeMac s p r).buf.length := by
  refine ⟨skbData_writeMac s p r hm hb, hm, ?_⟩
  rw [writeMac_buf]
  exact Nat.le_trans hb (listOverwrite_length_ge _ _ _)

lemma fillTag_overwrites (E r1 r2 r4 : List Nat) (hlen : 20 ≤ E.length)
    (h1 : r1.length = 2) (h2 : r2.length = 2) (h4 : r4.length = 2) :
    listOverwrite (listOverwrite (listOverwrite (listOverwrite E 14 r1) 16 r2)
        18 (((listOverwrite (listOverwrite E 14 r1) 16 r2).drop 12).take 2))
      12 r4 =
      E.take 12 ++ (r4 ++ (r1 ++ (r2 ++ ((E.drop 12).take 2 ++
        E.drop 20)))) := by
  have hlen14 : (E.take 14).length = 14 := by rw [List.length_take]; omega
  have hlen12 : (E.take 12).length = 12 := by rw [List.length_take]; omega
  have hS0 : ((E.drop 12).take 2).length = 2 := by
    rw [List.length_take, List.length_drop]; omega
  have hS1 : ((E.drop 14).take 2).length = 2 := by
    rw [List.length_take, List.length_drop]; omega
  have hS2 : ((E.drop 16).take 2).length = 2 := by
    rw [List.length_take, List.length_drop]; omega
  have hS3 : ((E.drop 18).take 2).length = 2 := by
    rw [List.length_take, List.length_drop]; omega
  have hsplitE : E = E.take 14 ++ ((E.drop 14).take 2 ++
      ((E.drop 16).take 2 ++ E.drop 18)) := by
    conv_lhs => rw [← List.take_append_drop 14 E]
    congr 1
    conv_lhs => rw [← List.take_append_drop 2 (E.drop 14)]
    rw [List.drop_drop]
    congr 1
    conv_lhs => rw [← List.take_append_drop 2 (E.drop 16)]
    rw [List.drop_drop]
  have hA14 : E.take 14 = E.take 12 ++ (E.drop 12).take 2 := by
    rw [show (14 : Nat) = 12 + 2 from rfl, List.take_add]
  have hD18 : E.drop 18 = (E.drop 18).take 2 ++ E.drop 20 := by
    conv_lhs => rw [← List.take_append_drop 2 (E.drop 18)]
    rw [List.drop_drop]
  have l1 : listOverwrite E 14 r1 =
      E.take 14 ++ (r1 ++ ((E.drop 16).take 2 ++ E.drop 18)) := by
    conv_lhs => rw [hsplitE]
    exact listOverwrite_segment (E.take 14) ((E.drop 14).take 2)
      ((E.drop 16).take 2 ++ E.drop 18) r1 14 hlen14.symm
      (by rw [h1, hS1])
  have l2 : listOverwrite (listOverwrite E 14 r1) 16 r2 =
      (E.take 14 ++ r1) ++ (r2 ++ E.drop 18) := by
    rw [l1, ← List.append_assoc (E.take 14) r1 _]
    exact listOverwrite_segment (E.take 14 ++ r1) ((E.drop 16).take 2)
      (E.drop 18) r2 16 (by rw [List.length_append, hlen14, h1])
      (by rw [h2, hS2])
  have hencap :
      ((listOverwrite (listOverwrite E 14 r1) 16 r2).drop 12).take 2 =
      (E.drop 12).take 2 := by
    rw [l2, hA14]
    rw [List.append_assoc (E.take 12) ((E.drop 12).take 2) r1]
    rw [List.append_assoc (E.take 12) _ _]
    rw [drop_append_big (by rw [hlen12])]
    rw [hlen12, Nat.sub_self, List.drop_zero]
    rw [List.append_assoc ((E.drop 12).take 2) r1 (r2 ++ E.drop 18)]
    rw [take_append_small (by rw [hS0])]
    rw [List.take_of_length_le (by rw [hS0])]
  have l3 : listOverwrite (listOverwrite (listOverwrite E 14 r1) 16 r2) 18
      (((listOverwrite (listOverwrite E 14 r1) 16 r2).drop 12).take 2) =
      ((E.take 14 ++ r1) ++ r2) ++ ((E.drop 12).take 2 ++ E.drop 20) := by
    rw [hencap, l2, hD18]
    rw [← List.append_assoc r2 ((E.drop 18).take 2) (E.drop 20)]
    rw [← List.append_assoc (E.take 14 ++ r1) (r2 ++ (E.drop 18).take 2) _]
    rw [← List.append_assoc (E.take 14 ++ r1) r2 ((E.drop 18).take 2)]
    rw [List.append_assoc ((E.take 14 ++ r1) ++ r2) ((E.drop 18).take 2) _]
    exact listOverwrite_segment ((E.take 14 ++ r1) ++ r2)
      ((E.drop 18).take 2) (E.drop 20) ((E.drop 12).take 2) 18
      (by rw [List.length_append, List.length_append, hlen14, h1, h2])
      (by rw [hS0, hS3])
  rw [l3, hA14]
  rw [List.append_assoc (E.take 12) ((E.drop 12).take 2) r1]
  rw [List.append_assoc (E.take 12) _ r2]
  rw [List.append_assoc (E.take 12) _ _]
  rw [List.append_assoc ((E.drop 12).take 2) r1 r2]
  rw [List.append_assoc ((E.drop 12).take 2) (r1 ++ r2) _]
  rw [listOverwrite_segment (E.take 12) ((E.drop 12).take 2)
      ((r1 ++ r2) ++ ((E.drop 12).take 2 ++ E.drop 20)) r4 12
      hlen12.symm (by rw [h4, hS0])]
  simp [List.append_assoc]

/-- Filling the redundancy tag (non-VLAN): writes the path/LSDU word,
the sequence number, the saved ethertype (the two bytes at offset 12)
as encapsulated protocol, and the outer redundancy ethertype selected
by the protocol version. -/
lemma hsrFillTag_data (s : SkBuff) (sq : Nat) (pt : PortType) (pv : Nat)
    (hm : s.macOff = s.off) (hb : s.off ≤ s.buf.length)
    (hlen : 20 ≤ (skbData s).length) :
    skbData (hsrFillTag s sq false pt pv) =
      (skbData s).take 12 ++
      ([(if pv ≠ 0 then ETH_P_HSR else ETH_P_PRP) / 256,
        (if pv ≠ 0 then ETH_P_HSR else ETH_P_PRP) % 256] ++
       ([((if pt = PortType.slaveA then 0 else 1) * 4096 +
            ((skbData s).length - 14) % 4096) / 256,
         ((if pt = PortType.slaveA then 0 else 1) * 4096 +
            ((skbData s).length - 14) % 4096) % 256] ++
        (be16 sq ++
         (((skbData s).drop 12).take 2 ++ (skbData s).drop 20)))) := by
  have hPL : ((if pt = PortType.slaveA then (0 : Nat) else 1) % 16) * 4096 +
      ((((skbLen s : Int) - 14 - (if (false = true) then 4 else 0)).emod
        4096).toNat) =
      (if pt = PortType.slaveA then 0 else 1) * 4096 +
        ((skbData s).length - 14) % 4096 := by
    have h14 : (14 : Nat) ≤ (skbData s).length := by omega
    have hsl : skbLen s = (skbData s).length := rfl
    rw [if_neg (by decide : ¬(false = true))]
    rw [hsl, Int.sub_zero]
    have hlane : ((if pt = PortType.slaveA then (0 : Nat) else 1) % 16) =
        (if pt = PortType.slaveA then 0 else 1) := by
      split <;> rfl
    have hlsdu : ((((skbData s).length : Int) - 14).emod 4096).toNat =
        ((skbData s).length - 14) % 4096 := by
      have hcast : ((skbData s).length : Int) - 14 =
          (((skbData s).length - 14 : Nat) : Int) := by omega
      rw [hcast,
        show ∀ a b : Int, a.emod b = a % b from fun _ _ => rfl]
      omega
    rw [hlane, hlsdu]
  simp only [hsrFillTag]
  rw [hPL]
  obtain ⟨e1, hm1, hb1⟩ := writeMac_step s 14
    [((if pt = PortType.slaveA then 0 else 1) * 4096 +
        ((skbData s).length - 14) % 4096) / 256,
     ((if pt = PortType.slaveA then 0 else 1) * 4096 +
        ((skbData s).length - 14) % 4096) % 256] hm hb
  obtain ⟨e2, hm2, hb2⟩ := writeMac_step (writeMac s 14
    [((if pt = PortType.slaveA then 0 else 1) * 4096 +
        ((skbData s).length - 14) % 4096) / 256,
     ((if pt = PortType.slaveA then 0 else 1) * 4096 +
        ((skbData s).length - 14) % 4096) % 256]) 16 (be16 sq) hm1 hb1
  rw [e1] at e2
  set W2 := writeMac (writeMac s 14
    [((if pt = PortType.slaveA then 0 else 1) * 4096 +
        ((skbData s).length - 14) % 4096) / 256,
     ((if pt = PortType.slaveA then 0 else 1) * 4096 +
        ((skbData s).length - 14) % 4096) % 256]) 16 (be16 sq) with hW2
  have hz : readMac W2 12 2 = ((skbData W2).drop 12).take 2 :=
    readMac_eq_data W2 12 2 hm2
  obtain ⟨e3, hm3, hb3⟩ := writeMac_step W2 18 (readMac W2 12 2) hm2 hb2
  obtain ⟨e4, hm4, hb4⟩ := writeMac_step (writeMac W2 18 (readMac W2 12 2))
    12 [(if pv ≠ 0 then ETH_P_HSR else ETH_P_PRP) / 256,
        (if pv ≠ 0 then ETH_P_HSR else ETH_P_PRP) % 256] hm3 hb3
  rw [e4, e3, hz, e2]
  exact fillTag_overwrites (skbData s) _ _ _ hlen (by rfl)
    (by rfl) (by rfl)

lemma tagShift_props (f : SkBuff) (hl : 14 ≤ skbLen f) :
    (tagShift f 14).macOff = (tagShift f 14).off ∧
    (tagShift f 14).off ≤ (tagShift f 14).buf.length ∧
    skbData (tagShift f 14) =
      (skbData f).take 14 ++ (skbData f).drop 8 := by
  have h6 : HSR_PRP_HLEN = 6 := rfl
  have h14 : ((skbData f).take 14).length = 14 := by
    rw [List.length_take]
    have : 14 ≤ (skbData f).length := hl
    omega
  set S2 := skbPush (csumAdjust (skbResetMac (pskbCopy f
    (skbHeadroom f + HSR_PRP_HLEN))) (HSR_PRP_HLEN : Int)) HSR_PRP_HLEN
    with hS2
  have hoff2 : S2.off = f.off := by
    rw [hS2]
    simp [skbPush, skbResetMac, pskbCopy, skbHeadroom]
  have hbuf2 : S2.buf =
      List.replicate (f.off + HSR_PRP_HLEN) 0 ++ skbData f := by
    rw [hS2]
    simp [skbPush, skbResetMac, pskbCopy, skbHeadroom]
  have hbuf0 : (tagShift f 14).buf =
      listOverwrite S2.buf S2.off
        ((S2.buf.drop (S2.off + HSR_PRP_HLEN)).take 14) := rfl
  have hoff0 : (tagShift f 14).off = S2.off := rfl
  have hmac0 : (tagShift f 14).macOff = S2.off := rfl
  have hbufeq : (tagShift f 14).buf =
      List.replicate f.off 0 ++
        ((skbData f).take 14 ++ (skbData f).drop 8) := by
    rw [hbuf0, hbuf2, hoff2]
    rw [drop_append_big (by rw [List.length_replicate])]
    rw [List.length_replicate, Nat.sub_self, List.drop_zero]
    unfold listOverwrite
    rw [take_append_small (by rw [List.length_replicate]; omega)]
    rw [List.take_replicate,
      show min f.off (f.off + HSR_PRP_HLEN) = f.off from by omega]
    rw [h14]
    rw [drop_append_big (by rw [List.length_replicate, h6]; omega)]
    rw [List.length_replicate]
    rw [show f.off + 14 - (f.off + HSR_PRP_HLEN) = 8 from by rw [h6]; omega]
    rw [List.append_assoc]
  refine ⟨by rw [hmac0, hoff0], ?_, ?_⟩
  · rw [hbufeq, hoff0, hoff2, List.length_append, List.length_replicate]
    omega
  · show (tagShift f 14).buf.drop (tagShift f 14).off = _
    rw [hbufeq, hoff0, hoff2]
    rw [drop_append_big (by rw [List.length_replicate])]
    rw [List.length_replicate, Nat.sub_self, List.drop_zero]

/-- Tagging (non-VLAN): the output is the addressing bytes, the outer
redundancy ethertype chosen by the protocol version, the path/LSDU
word, the big-endian sequence number, the original ethertype saved as
encapsulated protocol, and the original payload. -/
lemma createTaggedSkb_data (f : SkBuff) (sq : Nat) (pt : PortType)
    (pv : Nat) (hl : 14 ≤ skbLen f) :
    ∃ t, createTaggedSkb f sq false pt pv true = some t ∧
      t.macOff = t.off ∧
      skbData t =
        (skbData f).take 12 ++
        ([(if pv ≠ 0 then ETH_P_HSR else ETH_P_PRP) / 256,
          (if pv ≠ 0 then ETH_P_HSR else ETH_P_PRP) % 256] ++
         ([((if pt = PortType.slaveA then 0 else 1) * 4096 +
              ((skbData f).length - 8) % 4096) / 256,
           ((if pt = PortType.slaveA then 0 else 1) * 4096 +
              ((skbData f).length - 8) % 4096) % 256] ++
          (be16 sq ++
           (((skbData f).drop 12).take 2 ++ (skbData f).drop 14)))) := by
  obtain ⟨hmac, hble, hdata⟩ := tagShift_props f hl
  have hdn : 14 ≤ (skbData f).length := hl
  have h14 : ((skbData f).take 14).length = 14 := by
    rw [List.length_take]; omega
  have hlen20 : 20 ≤ (skbData (tagShift f 14)).length := by
    rw [hdata, List.length_append, h14, List.length_drop]
    omega
  refine ⟨hsrFillTag (tagShift f 14) sq false pt pv, rfl, hmac, ?_⟩
  rw [hsrFillTag_data (tagShift f 14) sq pt pv hmac hble hlen20]
  rw [hdata]
  have hEtake : ((skbData f).take 14 ++ (skbData f).drop 8).take 12 =
      (skbData f).take 12 := by
    rw [take_append_small (by rw [h14]; omega), List.take_take]
    rfl
  have hElen : ((skbData f).take 14 ++ (skbData f).drop 8).length - 14 =
      (skbData f).length - 8 := by
    rw [List.length_append, h14, List.length_drop]
    omega
  have hEmid : (((skbData f).take 14 ++ (skbData f).drop 8).drop 12).take 2 =
      ((skbData f).drop 12).take 2 := by
    rw [List.drop_append_eq_append_drop]
    rw [take_append_small (by
      rw [List.length_drop, h14])]
    rw [List.take_of_length_le (by rw [List.length_drop, h14])]
    rw [List.drop_take]
  have hEdrop : ((skbData f).take 14 ++ (skbData f).drop 8).drop 20 =
      (skbData f).drop 14 := by
    rw [drop_append_big (by rw [h14]; omega), h14]
    rw [show (20 : Nat) - 14 = 6 from rfl, List.drop_drop]
  rw [hEtake, hElen, hEmid, hEdrop]

/-- An untagged VLAN frame (ethertype `0x8100`, delivery class
other-host), used by the codec counterexample. -/
def vlanFrame2 : SkBuff :=
  mkSkb [1,2,3,4,5,6, 7,8,9,10,11,12, 0x81,0, 0,5, 8,0, 0xAA,0xBB]
    PacketType.otherhost

/-- Claim C2, counterexample: for a VLAN-tagged (hence still untagged
in the redundancy sense) frame, stripping the result of tagging it
does not reproduce the original bytes — the codec writes the tag at
fixed offsets and clobbers the VLAN header.  The classifier marks this
frame `is_vlan`, and the tag-then-strip composition under that flag
changes the ethertype and following bytes. -/
theorem tag_strip_vlan_counterexample :
    read16Mac vlanFrame2 12 = ETH_P_8021Q ∧
    (fillFrameInfo testPriv vlanFrame2 portA (some 9)).map
        (fun fc => fc.1.isVlan) = some true ∧
    ((createTaggedSkb vlanFrame2 5 true PortType.slaveB 1 true).map
        (fun t => (createStrippedSkb t true true).1.map skbData)) =
      some (some [1,2,3,4,5,6, 7,8,9,10,11,12, 0x89,0x2F, 0x10,8,
        8,0, 0xAA,0xBB]) ∧
    ([1,2,3,4,5,6, 7,8,9,10,11,12, 0x89,0x2F, 0x10,8, 8,0, 0xAA,0xBB]
        : List Nat) ≠ skbData vlanFrame2 := by
  refine ⟨by decide, by decide, by decide, by decide⟩

/-- Claim C2 as amended (non-VLAN frames): stripping the result of
tagging an untagged frame reproduces its bytes — ethertype, addressing
bytes and payload — exactly; and tagging the result of stripping a
tagged frame with the same lane, sequence number and protocol version
reproduces the tagged frame's bytes, tag fields included, whenever the
tagged frame's outer ethertype matches the protocol version and its
path/LSDU word is well-formed for its length. -/
theorem tag_strip_roundtrip :
    (∀ (f : SkBuff) (sq : Nat) (pt : PortType) (pv : Nat),
      f.macOff = f.off → 14 ≤ skbLen f →
      ∀ t u, createTaggedSkb f sq false pt pv true = some t →
        (createStrippedSkb t false true).1 = some u →
        skbData u = skbData f) ∧
    (∀ (t : SkBuff) (sq : Nat) (pt : PortType) (pv : Nat),
      t.macOff = t.off → 20 ≤ skbLen t →
      ((skbData t).drop 12).take 2 =
        [(if pv ≠ 0 then ETH_P_HSR else ETH_P_PRP) / 256,
         (if pv ≠ 0 then ETH_P_HSR else ETH_P_PRP) % 256] →
      ((skbData t).drop 14).take 2 =
        [((if pt = PortType.slaveA then 0 else 1) * 4096 +
            ((skbData t).length - 14) % 4096) / 256,
         ((if pt = PortType.slaveA then 0 else 1) * 4096 +
            ((skbData t).length - 14) % 4096) % 256] →
      ((skbData t).drop 16).take 2 = be16 sq →
      ∀ u t', (createStrippedSkb t false true).1 = some u →
        createTaggedSkb u sq false pt pv true = some t' →
        skbData t' = skbData t) := by
  constructor
  · intro f sq pt pv hm hl t u ht hu
    obtain ⟨t0, ht0, hmt0, hdt0⟩ := createTaggedSkb_data f sq pt pv hl
    rw [ht0] at ht
    injection ht with ht
    subst ht
    have hdn : 14 ≤ (skbData f).length := hl
    have h12 : ((skbData f).take 12).length = 12 := by
      rw [List.length_take]; omega
    have hlu : 12 ≤ skbLen t0 := by
      show 12 ≤ (skbData t0).length
      rw [hdt0]
      rw [List.length_append, h12]
      omega
    obtain ⟨u0, hu0, hmu0, hdu0⟩ := createStrippedSkb_data t0 hmt0 hlu
    rw [hu0] at hu
    injection hu with hu
    subst hu
    rw [hdu0, hdt0]
    rw [take_append_small (by rw [h12])]
    rw [List.take_of_length_le (by rw [h12])]
    rw [drop_append_big (by rw [h12]; omega), h12]
    rw [show (18 : Nat) - 12 = 4 + 2 from rfl]
    rw [show ∀ (a b : Nat) (l : List Nat) (n : Nat),
          List.drop (n + 2) ([a, b] ++ l) = List.drop n l from
        fun a b l n => rfl]
    rw [show (4 : Nat) = 2 + 2 from rfl]
    rw [show ∀ (a b : Nat) (l : List Nat) (n : Nat),
          List.drop (n + 2) ([a, b] ++ l) = List.drop n l from
        fun a b l n => rfl]
    simp only [be16]
    rw [show (2 : Nat) = 0 + 2 from rfl]
    rw [show ∀ (a b : Nat) (l : List Nat) (n : Nat),
          List.drop (n + 2) ([a, b] ++ l) = List.drop n l from
        fun a b l n => rfl]
    rw [List.drop_zero]
    rw [show (skbData f).drop 14 = ((skbData f).drop 12).drop 2 from
      by rw [List.drop_drop]]
    rw [List.take_append_drop, List.take_append_drop]
  · intro t sq pt pv hm hlen hver hpath hseq u t' hu ht'
    have hd20 : 20 ≤ (skbData t).length := hlen
    have h12 : ((skbData t).take 12).length = 12 := by
      rw [List.length_take]; omega
    obtain ⟨u0, hu0, hmu0, hdu0⟩ := createStrippedSkb_data t hm
      (by show 12 ≤ (skbData t).length; omega)
    rw [hu0] at hu
    injection hu with hu
    subst hu
    have hlu : 14 ≤ skbLen u0 := by
      show 14 ≤ (skbData u0).length
      rw [hdu0, List.length_append, h12, List.length_drop]
      omega
    obtain ⟨t0, ht0, hmt0, hdt0⟩ := createTaggedSkb_data u0 sq pt pv hlu
    rw [ht0] at ht'
    injection ht' with ht'
    subst ht'
    rw [hdt0, hdu0]
    have hulen : ((skbData t).take 12 ++ (skbData t).drop 18).length - 8 =
        (skbData t).length - 14 := by
      rw [List.length_append, h12, List.length_drop]
      omega
    have hutake : ((skbData t).take 12 ++ (skbData t).drop 18).take 12 =
        (skbData t).take 12 := by
      rw [take_append_small (by rw [h12]), List.take_of_length_le
        (by rw [h12])]
    have humid : (((skbData t).take 12 ++ (skbData t).drop 18).drop 12).take 2
        = ((skbData t).drop 18).take 2 := by
      rw [List.drop_append_eq_append_drop]
      rw [List.drop_eq_nil_of_le (by rw [h12]), h12, Nat.sub_self,
        List.drop_zero, List.nil_append]
    have hudrop : ((skbData t).take 12 ++ (skbData t).drop 18).drop 14 =
        (skbData t).drop 20 := by
      rw [drop_append_big (by rw [h12]; omega), h12]
      rw [show (14 : Nat) - 12 = 2 from rfl, List.drop_drop]
    rw [hulen, hutake, humid, hudrop]
    rw [← hver, ← hpath, ← hseq]
    conv_rhs => rw [← List.take_append_drop 12 (skbData t)]
    congr 1
    conv_rhs => rw [← List.take_append_drop 2 ((skbData t).drop 12)]
    rw [List.drop_drop]
    congr 1
    conv_rhs => rw [← List.take_append_drop 2 ((skbData t).drop 14)]
    rw [List.drop_drop]
    congr 1
    conv_rhs => rw [← List.take_append_drop 2 ((skbData t).drop 16)]
    rw [List.drop_drop]
    congr 1
    conv_rhs => rw [← List.take_append_drop 2 ((skbData t).drop 18)]
    rw [List.drop_drop]

/-- An untagged IPv4 frame used by the round-trip witness. -/
def c2Frame : SkBuff :=
  mkSkb [1,2,3,4,5,6, 7,8,9,10,11,12, 8,0, 0xAA,0xBB,0xCC]
    PacketType.otherhost

/-- The PRP/HSR-tagged form of `c2Frame` (lane 1, LSDU size 9,
sequence number 5, HSRv1 ethertype). -/
def c2Tagged : SkBuff :=
  mkSkb [1,2,3,4,5,6, 7,8,9,10,11,12, 0x89,0x2F, 0x10,9, 0,5, 8,0,
    0xAA,0xBB,0xCC] PacketType.otherhost

/-- The stripped form of `c2Tagged` (the original bytes; the buffer
protocol field picks up the restored ethertype). -/
def c2Stripped : SkBuff :=
  { mkSkb [1,2,3,4,5,6, 7,8,9,10,11,12, 8,0, 0xAA,0xBB,0xCC]
      PacketType.otherhost with protocol := 2048 }

/-- Witness for `tag_strip_roundtrip`: tagging then stripping the
concrete frame restores its bytes, and stripping then re-tagging the
concrete tagged frame restores the tagged bytes. -/
theorem tag_strip_roundtrip_witness :
    skbData c2Stripped = skbData c2Frame ∧
    skbData { c2Tagged with protocol := 2048 } = skbData c2Tagged :=
  ⟨tag_strip_roundtrip.1 c2Frame 5 PortType.slaveB 1 rfl (by decide)
     c2Tagged c2Stripped (by decide) (by decide),
   tag_strip_roundtrip.2 c2Tagged 5 PortType.slaveB 1 rfl (by decide)
     (by decide) (by decide) (by decide) c2Stripped
     { c2Tagged with protocol := 2048 } (by decide) (by decide)⟩

/-- Frame context of the untagged broadcast frame `frameBcast`
received on slave-A, as used by witnesses. -/
def bcastFrameInfo : FrameInfo :=
  { skbStd := some frameBcast, skbHsr := none, portRcv := portA
  , nodeSrc := some 9, sequenceNr := 5, isSupervision := false
  , isVlan := false, isLocalDest := true, isLocalExclusive := false }

/-- Witness for `forward_port_skip_iff_dispatch`: slave-B survives all
six guards for the broadcast frame from slave-A and receives exactly
one egress dispatch. -/
theorem forward_port_skip_iff_dispatch_witness :
    specSkipReason testPriv bcastFrameInfo (fun _ => false) portB = none ∧
    ((portB.ptype = PortType.master ∧
      ∃ s, (processPort testPriv bcastFrameInfo (fun _ => false)
        (fun _ => true) (fun _ => true) portB).actsOf =
          [Action.deliverMaster portB s]) ∨
     (portB.ptype ≠ PortType.master ∧
      ∃ s, (processPort testPriv bcastFrameInfo (fun _ => false)
        (fun _ => true) (fun _ => true) portB).actsOf =
          [Action.xmit portB s])) :=
  ⟨by decide,
   (forward_port_skip_iff_dispatch testPriv bcastFrameInfo (fun _ => false)
      (fun _ => true) (fun _ => true) portB (by decide) (by decide)
      (by decide) (by decide)).2.2 (by decide)⟩

end HsrPrp
